import Mathlib

/-!
Verification of the webhook registration and server lifecycle logic of the
yatbl repository.  The file src/src/WebhookBot.js contains two variants of
the WebhookBot class; the second variant (lines 91 to 213) is the one the
specification treats as authoritative for URL construction, and the first
variant (lines 1 to 90) is embedded as well where a claim cites it.

JavaScript values are embedded as the inductive type JSValue, objects as
association lists with the JavaScript lookup, update, delete and spread
semantics, and each bot method as a pure function returning its settled
result together with the list of recorded external events (listener
creation, API calls via tapi, listener close).  Remote-call success and
listener-close success are oracle Bool parameters.  Identifiers that the
source references without any binding in scope (BOT_TOKEN and options
inside deleteWebhook, and BOT_TOKEN in the first variant of setWebhook)
are embedded as lookups that fail with a ReferenceError, exactly as
JavaScript evaluates a free identifier that no surrounding scope declares.
-/

namespace Yatbl

/-- JavaScript values, as far as the embedded code inspects them.  Numbers
are embedded as integers (every number the source manipulates is an
integer), and function values are not modelled: a plain object stringifies
to "[object Object]", as JavaScript does for objects without a custom
toString. -/
inductive JSValue where
  | str : String → JSValue
  | num : Int → JSValue
  | bool : Bool → JSValue
  | null : JSValue
  | undef : JSValue
  | object : List (String × JSValue) → JSValue

/-- A JavaScript object: an association list of fields in insertion order.
JavaScript objects never hold the same key twice; the predicate nodupKeys
below states that invariant where a proof needs it. -/
abbrev Obj := List (String × JSValue)

/-- Property lookup on an object: the value at the first matching key. -/
def objGet : Obj → String → Option JSValue
  | [], _ => none
  | (k1, v1) :: rest, k => if k1 = k then some v1 else objGet rest k

/-- Property assignment: update the first matching key in place, else
append the new field at the end, as JavaScript does. -/
def objSet : Obj → String → JSValue → Obj
  | [], k, v => [(k, v)]
  | (k1, v1) :: rest, k, v =>
    if k1 = k then (k1, v) :: rest else (k1, v1) :: objSet rest k v

/-- The delete operator: remove the field (all occurrences; on the unique
keys of a JavaScript object this is the single own property). -/
def objDel : Obj → String → Obj
  | [], _ => []
  | (k1, v1) :: rest, k =>
    if k1 = k then objDel rest k else (k1, v1) :: objDel rest k

/-- Object spread: the literal base object with every field of ext
assigned over it in order, so a key of ext overrides a key of base. -/
def objSpread (base : Obj) (ext : Obj) : Obj :=
  ext.foldl (fun acc p => objSet acc p.1 p.2) base

/-- Keys of the object are pairwise distinct, the invariant every
JavaScript object satisfies. -/
def nodupKeys (m : Obj) : Prop := (m.map Prod.fst).Nodup

instance (m : Obj) : Decidable (nodupKeys m) :=
  inferInstanceAs (Decidable (m.map Prod.fst).Nodup)

/-- JavaScript truthiness of a value. -/
def truthy : JSValue → Bool
  | JSValue.str s => if s = "" then false else true
  | JSValue.num n => if n = 0 then false else true
  | JSValue.bool b => b
  | JSValue.null => false
  | JSValue.undef => false
  | JSValue.object _ => true

/-- JavaScript string coercion of a value, as used by string concatenation
and by the URL constructor. -/
def jsToString : JSValue → String
  | JSValue.str s => s
  | JSValue.num n => toString n
  | JSValue.bool b => if b then "true" else "false"
  | JSValue.null => "null"
  | JSValue.undef => "undefined"
  | JSValue.object _ => "[object Object]"

/-- Characters permitted in a URL scheme after its first character. -/
def isSchemeChar (c : Char) : Bool :=
  c.isAlphanum || c = '+' || c = '-' || c = '.'

/-- Scan for the colon ending a URL scheme, accumulating the lowercased
scheme characters seen so far (in reverse). -/
def schemeLoop (acc : List Char) : List Char → Option String
  | [] => none
  | c :: rest =>
    if c = ':' then some (String.mk (acc.reverse ++ [':']))
    else if isSchemeChar c then schemeLoop (c.toLower :: acc) rest
    else none

/-- Model of the source lines 142 to 143: new URL(url) followed by reading
its protocol property.  Returns the scheme of the string, lowercased and
suffixed with a colon, which is the only component of the parsed URL the
source inspects; none models the URL constructor throwing on an input that
does not start with a valid scheme.  Host and path validation of the full
WHATWG parser is not modelled; that only widens the set of accepted inputs
beyond anything the theorems below exercise. -/
def jsURLProtocol (s : String) : Option String :=
  match s.toList with
  | [] => none
  | c :: rest => if c.isAlpha then schemeLoop [c.toLower] rest else none

/-- Errors the embedded methods can settle with. -/
inductive JsError where
  /-- The Error thrown at source lines 146 to 148 for an invalid or
  non-https webhook URL. -/
  | configError : JsError
  /-- Evaluation of an identifier that no scope declares. -/
  | referenceError : String → JsError
  /-- Property access on null or undefined. -/
  | typeError : JsError
  /-- Rejection of the remote tapi call. -/
  | apiError : JsError

/-- External interactions recorded during a method run. -/
inductive Event where
  /-- The HTTP listener was created on the given port and accepts
  connections. -/
  | listen : JSValue → Event
  /-- The tapi remote call was invoked with a method name and a request
  body. -/
  | apiCall : String → Obj → Event
  /-- Graceful close of the listener was initiated. -/
  | closeServer : Event

/-- Outcome of one embedded method call: the settled result (resolved
value or thrown error), the recorded external events in order, and the
state of the caller-supplied options object after the call (the source
mutates it in place at line 154). -/
structure CallResult where
  result : Except JsError JSValue
  events : List Event
  optionsAfter : Obj

/-- Property access v.k on an arbitrary JavaScript value: throws TypeError
on null and undefined, looks the key up on an object, and yields undefined
on other primitives (none of the keys the source reads exists on a
primitive wrapper). -/
def getProp : JSValue → String → Except JsError JSValue
  | JSValue.null, _ => Except.error JsError.typeError
  | JSValue.undef, _ => Except.error JsError.typeError
  | JSValue.object m, k => Except.ok ((objGet m k).getD JSValue.undef)
  | _, _ => Except.ok JSValue.undef

/-- The default parameter PORT = 3000 of startServer (source line 117):
the default applies exactly when the argument is undefined. -/
def defaultPort : JSValue → JSValue
  | JSValue.undef => JSValue.num 3000
  | p => p

/-- Modelled from the spec: the listener factory startServer is loaded
from "./server" (source line 97), a module that is not under src/.  Per
spec section 6 the factory, given a port and a request handler, returns a
listening server ready to accept connections, so listener creation is
recorded as a single event at the call.  The 3000 default for the port is
from the source itself (line 117). -/
def startServerCall (PORT : JSValue) : List Event :=
  [Event.listen (defaultPort PORT)]

/-- The local urlPath of setWebhook (source line 152): options.path when
truthy, otherwise the bot token. -/
def derivedUrlPath (token : String) (options : Obj) : JSValue :=
  let v := (objGet options "path").getD JSValue.undef
  if truthy v then v else JSValue.str token

/-- The state of the caller-supplied options object after the conditional
delete of its path field (source lines 153 to 154): the field is removed
exactly when it is truthy. -/
def optionsAfterDelete (options : Obj) : Obj :=
  if truthy ((objGet options "path").getD JSValue.undef) then
    objDel options "path"
  else options

/-- The request body of the setWebhook remote call (source lines 156 to
159): an object literal whose url field is the url concatenated with the
derived path, with the (possibly path-deleted) options object spread over
it.  As in JavaScript, a key of the spread object equal to "url" overrides
the computed field, because the spread comes second. -/
def setWebhookPayload (token : String) (url : String) (options : Obj) : Obj :=
  objSpread
    [("url", JSValue.str (url ++ jsToString (derivedUrlPath token options)))]
    (optionsAfterDelete options)

/-- Embedding of WebhookBot.setWebhook, second variant (source lines 139
to 164).  The try/catch around the URL constructor and the protocol check
throws the invalid-URL Error exactly when the protocol of the parsed URL
is not "https:" or parsing fails, that is, when jsURLProtocol of the
string coercion of the url argument is not some "https:".  On a valid URL
the method computes the derived path, conditionally deletes options.path,
invokes tapi with the payload, and resolves true; a tapi rejection
propagates (there is no catch around it), with the call already recorded. -/
def setWebhook (token : String) (url : JSValue) (options : Obj)
    (tapiOk : Bool) : CallResult :=
  if jsURLProtocol (jsToString url) = some "https:" then
    { result := if tapiOk then Except.ok (JSValue.bool true)
                else Except.error JsError.apiError
      events := [Event.apiCall "setWebhook"
                  (setWebhookPayload token (jsToString url) options)]
      optionsAfter := optionsAfterDelete options }
  else
    { result := Except.error JsError.configError
      events := []
      optionsAfter := options }

/-- Embedding of WebhookBot.setWebhookAndStartServer, second variant
(source lines 174 to 179): it awaits startServer(options.PORT) and then
awaits setWebhook(options) — passing the options value itself as the url
parameter of setWebhook, whose own options parameter defaults to the empty
object.  Reading options.PORT throws a TypeError when options is null or
undefined, before the listener is created. -/
def setWebhookAndStartServer (token : String) (options : JSValue)
    (tapiOk : Bool) : CallResult :=
  match getProp options "PORT" with
  | Except.error e => { result := Except.error e, events := [], optionsAfter := [] }
  | Except.ok port =>
    let r := setWebhook token options [] tapiOk
    { result := r.result
      events := startServerCall port ++ r.events
      optionsAfter := r.optionsAfter }

/-- Evaluation of the identifier BOT_TOKEN inside a method body.  Neither
variant binds BOT_TOKEN in any scope enclosing the method bodies that use
it (the first variant module declares only Bot at line 6; the second
declares only Bot and startServer at lines 96 to 97; the constructor
parameter of the same name is local to the constructor), so JavaScript
evaluation throws a ReferenceError. -/
def lookupBOT_TOKEN : Except JsError String :=
  Except.error (JsError.referenceError "BOT_TOKEN")

/-- Evaluation of the identifier options inside deleteWebhook (source
lines 69 and 192): deleteWebhook takes no parameter and no enclosing scope
declares options, so evaluation throws a ReferenceError. -/
def lookupOptions : Except JsError Obj :=
  Except.error (JsError.referenceError "options")

/-- Embedding of WebhookBot.setWebhook, first variant (source lines 40 to
49): no URL validation and no path handling; the template literal at line
42 evaluates the unbound identifier BOT_TOKEN, so the method throws a
ReferenceError before tapi is ever invoked.  The ok branch shows the
translation the line would have under a bound token. -/
def setWebhook_v1 (options : Obj) (tapiOk : Bool) : CallResult :=
  match lookupBOT_TOKEN with
  | Except.error e => { result := Except.error e, events := [], optionsAfter := options }
  | Except.ok tok =>
    let payload := objSpread
      [("url", JSValue.str ("https://api.telegram.org/bot" ++ tok ++ "/"))]
      options
    { result := if tapiOk then Except.ok (JSValue.bool true)
                else Except.error JsError.apiError
      events := [Event.apiCall "setWebhook" payload]
      optionsAfter := options }

/-- Embedding of the first variant startServer (source lines 26 to 32):
the identifier startServer is itself unbound in the first variant module
(line 6 declares only Bot), so the call throws a ReferenceError. -/
def startServer_v1 (_PORT : JSValue) : CallResult :=
  { result := Except.error (JsError.referenceError "startServer")
    events := []
    optionsAfter := [] }

/-- Embedding of WebhookBot.setWebhookAndStartServer, first variant
(source lines 51 to 56): it awaits setWebhook(options) FIRST and
startServer(PORT) only afterwards; an error from either await propagates
(there is no catch). -/
def setWebhookAndStartServer_v1 (PORT : JSValue) (options : Obj)
    (tapiOk : Bool) : CallResult :=
  let r := setWebhook_v1 options tapiOk
  match r.result with
  | Except.error e =>
    { result := Except.error e, events := r.events, optionsAfter := r.optionsAfter }
  | Except.ok _ =>
    let s := startServer_v1 PORT
    { result := s.result
      events := r.events ++ s.events
      optionsAfter := r.optionsAfter }

/-- Embedding of WebhookBot.deleteWebhook, identical in both variants
(source lines 62 to 87 and 185 to 210).  The try block first evaluates the
template literal referencing the unbound identifier BOT_TOKEN (lines 64
and 187) and then the unbound identifier options in the tapi request body
(lines 69 and 192); the resulting ReferenceError is caught by the catch
block, which logs and resolves false.  The remaining branches show the
translation of the unreachable rest of the try block: the tapi
deleteWebhook call with the hardcoded Telegram API base url, then the
promise-wrapped graceful close whose callback error rejects into the catch
(resolving false), and true on full success. -/
def deleteWebhook (tapiOk : Bool) (closeOk : Bool) : CallResult :=
  match lookupBOT_TOKEN with
  | Except.error _ =>
    { result := Except.ok (JSValue.bool false), events := [], optionsAfter := [] }
  | Except.ok tok =>
    match lookupOptions with
    | Except.error _ =>
      { result := Except.ok (JSValue.bool false), events := [], optionsAfter := [] }
    | Except.ok opts =>
      let payload := objSpread
        [("url", JSValue.str ("https://api.telegram.org/bot" ++ tok ++ "/"))]
        opts
      if tapiOk then
        if closeOk then
          { result := Except.ok (JSValue.bool true)
            events := [Event.apiCall "deleteWebhook" payload, Event.closeServer]
            optionsAfter := [] }
        else
          { result := Except.ok (JSValue.bool false)
            events := [Event.apiCall "deleteWebhook" payload, Event.closeServer]
            optionsAfter := [] }
      else
        { result := Except.ok (JSValue.bool false)
          events := [Event.apiCall "deleteWebhook" payload]
          optionsAfter := [] }

/-! ## Lemmas about the object operations -/

theorem objGet_objDel_self (m : Obj) (k : String) :
    objGet (objDel m k) k = none := by
  induction m with
  | nil => rfl
  | cons p t ih =>
    obtain ⟨k1, v1⟩ := p
    by_cases h : k1 = k
    · simp [objDel, h, ih]
    · simp [objDel, objGet, h, ih]

theorem objGet_objDel_ne (m : Obj) (k k' : String) (h : k' ≠ k) :
    objGet (objDel m k) k' = objGet m k' := by
  have hkk : ¬ k = k' := fun hh => h hh.symm
  induction m with
  | nil => rfl
  | cons p t ih =>
    obtain ⟨k1, v1⟩ := p
    by_cases h1 : k1 = k
    · subst h1
      simp [objDel, objGet, hkk, ih]
    · by_cases h2 : k1 = k'
      · subst h2
        simp [objDel, objGet, h1, ih]
      · simp [objDel, objGet, h1, h2, ih]

theorem objDel_sublist (m : Obj) (k : String) :
    List.Sublist (objDel m k) m := by
  induction m with
  | nil => exact List.Sublist.refl []
  | cons p t ih =>
    obtain ⟨k1, v1⟩ := p
    by_cases h : k1 = k
    · simpa [objDel, h] using List.Sublist.cons (k1, v1) ih
    · simpa [objDel, h] using List.Sublist.cons₂ (k1, v1) ih

theorem nodupKeys_objDel (m : Obj) (k : String) (h : nodupKeys m) :
    nodupKeys (objDel m k) :=
  List.Nodup.sublist (List.Sublist.map Prod.fst (objDel_sublist m k)) h

theorem objGet_objSet_self (m : Obj) (k : String) (v : JSValue) :
    objGet (objSet m k v) k = some v := by
  induction m with
  | nil => simp [objSet, objGet]
  | cons p t ih =>
    obtain ⟨k1, v1⟩ := p
    by_cases h : k1 = k
    · simp [objSet, objGet, h]
    · simp [objSet, objGet, h, ih]

theorem objGet_objSet_ne (m : Obj) (k : String) (v : JSValue) (k' : String)
    (h : k' ≠ k) :
    objGet (objSet m k v) k' = objGet m k' := by
  have hkk : ¬ k = k' := fun hh => h hh.symm
  induction m with
  | nil => simp [objSet, objGet, hkk]
  | cons p t ih =>
    obtain ⟨k1, v1⟩ := p
    by_cases h1 : k1 = k
    · subst h1
      simp [objSet, objGet, hkk]
    · by_cases h2 : k1 = k'
      · subst h2
        simp [objSet, objGet, h1]
      · simp [objSet, objGet, h1, h2, ih]

theorem objGet_eq_none_of_not_mem (m : Obj) (k : String)
    (h : k ∉ m.map Prod.fst) :
    objGet m k = none := by
  induction m with
  | nil => rfl
  | cons p t ih =>
    obtain ⟨k1, v1⟩ := p
    have h1 : ¬ k1 = k := fun hh => h (by simp [hh])
    have h2 : k ∉ t.map Prod.fst := fun hh => h (by simp [hh])
    simp [objGet, h1, ih h2]

theorem objSpread_nil (base : Obj) : objSpread base [] = base := rfl

theorem objSpread_cons (base : Obj) (p : String × JSValue) (t : Obj) :
    objSpread base (p :: t) = objSpread (objSet base p.1 p.2) t := rfl

theorem objGet_objSpread_of_none (base ext : Obj) (k : String)
    (h : objGet ext k = none) :
    objGet (objSpread base ext) k = objGet base k := by
  induction ext generalizing base with
  | nil => rfl
  | cons p t ih =>
    obtain ⟨k1, v1⟩ := p
    by_cases h1 : k1 = k
    · simp [objGet, h1] at h
    · rw [objSpread_cons]
      simp [objGet, h1] at h
      rw [ih _ h]
      exact objGet_objSet_ne base k1 v1 k (fun hh => h1 hh.symm)

theorem objGet_objSpread_of_some (base ext : Obj) (k : String) (v : JSValue)
    (hnd : nodupKeys ext) (h : objGet ext k = some v) :
    objGet (objSpread base ext) k = some v := by
  induction ext generalizing base with
  | nil => simp [objGet] at h
  | cons p t ih =>
    obtain ⟨k1, v1⟩ := p
    rw [nodupKeys, List.map_cons, List.nodup_cons] at hnd
    by_cases h1 : k1 = k
    · subst h1
      simp [objGet] at h
      subst h
      rw [objSpread_cons]
      rw [objGet_objSpread_of_none _ t k1 (objGet_eq_none_of_not_mem t k1 hnd.1)]
      exact objGet_objSet_self base k1 v1
    · simp [objGet, h1] at h
      rw [objSpread_cons]
      exact ih _ hnd.2 h

/-! ## Lemmas about setWebhook on a valid https URL -/

theorem setWebhook_of_valid (token url : String) (options : Obj)
    (tapiOk : Bool) (hval : jsURLProtocol url = some "https:") :
    setWebhook token (JSValue.str url) options tapiOk =
      { result := if tapiOk then Except.ok (JSValue.bool true)
                  else Except.error JsError.apiError
        events := [Event.apiCall "setWebhook"
                    (setWebhookPayload token url options)]
        optionsAfter := optionsAfterDelete options } := by
  unfold setWebhook
  simp only [jsToString]
  rw [if_pos hval]

theorem optionsAfterDelete_of_truthy (options : Obj) (v : JSValue)
    (hpath : objGet options "path" = some v) (ht : truthy v = true) :
    optionsAfterDelete options = objDel options "path" := by
  unfold optionsAfterDelete
  rw [hpath, Option.getD_some, ht]
  simp

theorem optionsAfterDelete_of_falsy (options : Obj) (v : JSValue)
    (hpath : objGet options "path" = some v) (ht : truthy v = false) :
    optionsAfterDelete options = options := by
  unfold optionsAfterDelete
  rw [hpath, Option.getD_some, ht]
  simp

theorem optionsAfterDelete_of_absent (options : Obj)
    (hpath : objGet options "path" = none) :
    optionsAfterDelete options = options := by
  unfold optionsAfterDelete
  rw [hpath]
  simp [Option.getD, truthy]

theorem derivedUrlPath_of_truthy (token : String) (options : Obj) (v : JSValue)
    (hpath : objGet options "path" = some v) (ht : truthy v = true) :
    derivedUrlPath token options = v := by
  unfold derivedUrlPath
  rw [hpath]
  simp [ht]

theorem derivedUrlPath_of_falsy (token : String) (options : Obj) (v : JSValue)
    (hpath : objGet options "path" = some v) (ht : truthy v = false) :
    derivedUrlPath token options = JSValue.str token := by
  unfold derivedUrlPath
  rw [hpath]
  simp [ht]

theorem derivedUrlPath_of_absent (token : String) (options : Obj)
    (hpath : objGet options "path" = none) :
    derivedUrlPath token options = JSValue.str token := by
  unfold derivedUrlPath
  rw [hpath]
  simp [truthy]

/-! ## Ordering of recorded events -/

/-- Recognizes the remote setWebhook registration call in a trace. -/
def isSetWebhookCall : Event → Bool
  | Event.apiCall m _ => if m = "setWebhook" then true else false
  | _ => false

/-- Recognizes listener creation in a trace. -/
def isListen : Event → Bool
  | Event.listen _ => true
  | _ => false

/-- Every setWebhook registration call in the trace is strictly preceded
by a listener-creation event. -/
def listenBeforeRegister (evs : List Event) : Prop :=
  ∀ j, ∀ hj : j < evs.length, isSetWebhookCall (evs.get ⟨j, hj⟩) = true →
    ∃ i, ∃ hi : i < evs.length, i < j ∧ isListen (evs.get ⟨i, hi⟩) = true

theorem listenBeforeRegister_nil : listenBeforeRegister [] := by
  intro j hj
  exact absurd hj (Nat.not_lt_zero j)

theorem listenBeforeRegister_listen_cons (p : JSValue) (rest : List Event) :
    listenBeforeRegister (Event.listen p :: rest) := by
  intro j hj hcall
  cases j with
  | zero => exact Bool.noConfusion hcall
  | succ j => exact ⟨0, Nat.succ_pos _, Nat.succ_pos _, rfl⟩

/-! ## The claims -/

/-- C1: for every bot token, options value and remote-call outcome, the
combined start-and-register operation never invokes the remote setWebhook
registration call before the HTTP listener has been created: in the
recorded event sequence of the second variant a listener-creation event
strictly precedes every setWebhook call, and the first variant records no
events at all (its setWebhook throws a ReferenceError on the unbound
identifier BOT_TOKEN before any call, so it can never register first).
The final conjunct exhibits a run of the second variant in which both
events occur, in the claimed order, so the ordering property is not
vacuous. -/
theorem C1_listener_precedes_registration (token : String) (options : JSValue)
    (tapiOk : Bool) :
    listenBeforeRegister (setWebhookAndStartServer token options tapiOk).events
    ∧ (∀ (PORT : JSValue) (opts : Obj) (t : Bool),
        (setWebhookAndStartServer_v1 PORT opts t).events = [])
    ∧ (setWebhookAndStartServer "TOKEN" (JSValue.str "https://example.com/")
        true).events
      = [Event.listen (JSValue.num 3000),
         Event.apiCall "setWebhook"
           [("url", JSValue.str "https://example.com/TOKEN")]] := by
  refine ⟨?_, fun PORT opts t => rfl, rfl⟩
  cases options with
  | null => exact listenBeforeRegister_nil
  | undef => exact listenBeforeRegister_nil
  | str s => exact listenBeforeRegister_listen_cons _ _
  | num n => exact listenBeforeRegister_listen_cons _ _
  | bool b => exact listenBeforeRegister_listen_cons _ _
  | object m => exact listenBeforeRegister_listen_cons _ _

/-- C2: for every url value whose string form does not carry the https
scheme (including malformed URLs, where parsing fails), setWebhook of the
second variant settles with the ConfigError, records no events (so the
tapi method is never invoked and no listener is created), and leaves the
caller-supplied options object untouched. -/
theorem C2_nonhttps_fails_before_io (token : String) (url : JSValue)
    (options : Obj) (tapiOk : Bool)
    (h : jsURLProtocol (jsToString url) ≠ some "https:") :
    setWebhook token url options tapiOk =
      { result := Except.error JsError.configError
        events := []
        optionsAfter := options } := by
  unfold setWebhook
  rw [if_neg h]

/-- Witness for C2 at the concrete non-https URL http://example.com/ and
at a malformed URL. -/
theorem C2_witness :
    setWebhook "TOKEN" (JSValue.str "http://example.com/") [] true =
      { result := Except.error JsError.configError
        events := []
        optionsAfter := [] }
    ∧ setWebhook "TOKEN" (JSValue.str "not a url") [("path", JSValue.str "x")]
        true =
      { result := Except.error JsError.configError
        events := []
        optionsAfter := [("path", JSValue.str "x")] } :=
  ⟨C2_nonhttps_fails_before_io "TOKEN" (JSValue.str "http://example.com/") []
      true (by decide),
   C2_nonhttps_fails_before_io "TOKEN" (JSValue.str "not a url")
      [("path", JSValue.str "x")] true (by decide)⟩

/-- C3 counterexample: the claim says the url field of the payload is
always the given URL concatenated with "x" when options.path = "x"; but
the options object is spread AFTER the computed url field (source lines
156 to 159), so an options mapping that also carries a url key overrides
it.  At url https://example.com/ with options carrying path = "x" and
url = https://evil.example/ the payload url field is the latter, which
differs from the concatenation, while the setWebhook call is recorded with
exactly this payload. -/
theorem C3_counterexample :
    objGet (setWebhookPayload "TOKEN" "https://example.com/"
        [("path", JSValue.str "x"), ("url", JSValue.str "https://evil.example/")])
        "url"
      = some (JSValue.str "https://evil.example/")
    ∧ ("https://evil.example/" : String) ≠ "https://example.com/" ++ "x"
    ∧ (setWebhook "TOKEN" (JSValue.str "https://example.com/")
        [("path", JSValue.str "x"), ("url", JSValue.str "https://evil.example/")]
        true).events
      = [Event.apiCall "setWebhook"
          (setWebhookPayload "TOKEN" "https://example.com/"
            [("path", JSValue.str "x"),
             ("url", JSValue.str "https://evil.example/")])] :=
  ⟨rfl, by decide, rfl⟩

/-- C3 (amended): for every valid https URL and options mapping with
options.path = "x" and no url key, setWebhook derives the
registration path "x", the url field of the recorded setWebhook payload is
the given URL concatenated with "x", and the key path is absent from that
payload. -/
theorem C3_path_override (token url : String) (options : Obj) (tapiOk : Bool)
    (hval : jsURLProtocol url = some "https:")
    (hpath : objGet options "path" = some (JSValue.str "x"))
    (hurl : objGet options "url" = none) :
    derivedUrlPath token options = JSValue.str "x"
    ∧ objGet (setWebhookPayload token url options) "url"
        = some (JSValue.str (url ++ "x"))
    ∧ objGet (setWebhookPayload token url options) "path" = none
    ∧ (setWebhook token (JSValue.str url) options tapiOk).events
        = [Event.apiCall "setWebhook" (setWebhookPayload token url options)] := by
  have hder : derivedUrlPath token options = JSValue.str "x" :=
    derivedUrlPath_of_truthy token options (JSValue.str "x") hpath (by decide)
  have hdel : optionsAfterDelete options = objDel options "path" :=
    optionsAfterDelete_of_truthy options (JSValue.str "x") hpath (by decide)
  have hpay : setWebhookPayload token url options
      = objSpread [("url", JSValue.str (url ++ "x"))] (objDel options "path") := by
    unfold setWebhookPayload
    rw [hder, hdel]
    rfl
  refine ⟨hder, ?_, ?_, ?_⟩
  · rw [hpay,
      objGet_objSpread_of_none _ _ _
        (by rw [objGet_objDel_ne options "path" "url" (by decide)]; exact hurl)]
    rfl
  · rw [hpay,
      objGet_objSpread_of_none _ _ _ (objGet_objDel_self options "path")]
    rfl
  · rw [setWebhook_of_valid token url options tapiOk hval]

/-- Witness for the amended C3 at a concrete valid input. -/
theorem C3_witness :
    derivedUrlPath "TOKEN" [("path", JSValue.str "x"), ("max_connections", JSValue.num 40)]
      = JSValue.str "x"
    ∧ objGet (setWebhookPayload "TOKEN" "https://example.com/"
        [("path", JSValue.str "x"), ("max_connections", JSValue.num 40)]) "url"
      = some (JSValue.str ("https://example.com/" ++ "x"))
    ∧ objGet (setWebhookPayload "TOKEN" "https://example.com/"
        [("path", JSValue.str "x"), ("max_connections", JSValue.num 40)]) "path"
      = none
    ∧ (setWebhook "TOKEN" (JSValue.str "https://example.com/")
        [("path", JSValue.str "x"), ("max_connections", JSValue.num 40)] true).events
      = [Event.apiCall "setWebhook"
          (setWebhookPayload "TOKEN" "https://example.com/"
            [("path", JSValue.str "x"), ("max_connections", JSValue.num 40)])] :=
  C3_path_override "TOKEN" "https://example.com/"
    [("path", JSValue.str "x"), ("max_connections", JSValue.num 40)] true
    (by decide) rfl rfl

/-- C4 counterexample: the claim says that with no options.path the url
field of the payload is always the given URL concatenated with the bot
token; but an options mapping carrying a url key (a legitimate setWebhook
request field) overrides the computed field, because options is spread
after it.  Here the payload url field is https://other.example/, not
https://example.com/TOKEN, even though options has no path key. -/
theorem C4_counterexample :
    objGet [("url", JSValue.str "https://other.example/")] "path" = none
    ∧ objGet (setWebhookPayload "TOKEN" "https://example.com/"
        [("url", JSValue.str "https://other.example/")]) "url"
      = some (JSValue.str "https://other.example/")
    ∧ ("https://other.example/" : String) ≠ "https://example.com/" ++ "TOKEN" :=
  ⟨rfl, rfl, by decide⟩

/-- C4 (amended): for every valid https URL and options mapping with
no path key and no url key, setWebhook derives the bot token
as the registration path and the url field of the recorded setWebhook
payload is the given URL concatenated with the token. -/
theorem C4_default_path (token url : String) (options : Obj) (tapiOk : Bool)
    (hval : jsURLProtocol url = some "https:")
    (hpath : objGet options "path" = none)
    (hurl : objGet options "url" = none) :
    derivedUrlPath token options = JSValue.str token
    ∧ objGet (setWebhookPayload token url options) "url"
        = some (JSValue.str (url ++ token))
    ∧ (setWebhook token (JSValue.str url) options tapiOk).events
        = [Event.apiCall "setWebhook" (setWebhookPayload token url options)] := by
  have hder : derivedUrlPath token options = JSValue.str token :=
    derivedUrlPath_of_absent token options hpath
  have hdel : optionsAfterDelete options = options :=
    optionsAfterDelete_of_absent options hpath
  have hpay : setWebhookPayload token url options
      = objSpread [("url", JSValue.str (url ++ token))] options := by
    unfold setWebhookPayload
    rw [hder, hdel]
    rfl
  refine ⟨hder, ?_, ?_⟩
  · rw [hpay, objGet_objSpread_of_none _ _ _ hurl]
    rfl
  · rw [setWebhook_of_valid token url options tapiOk hval]

/-- Witness for the amended C4 at a concrete valid input. -/
theorem C4_witness :
    derivedUrlPath "TOKEN" [("max_connections", JSValue.num 40)]
      = JSValue.str "TOKEN"
    ∧ objGet (setWebhookPayload "TOKEN" "https://example.com/"
        [("max_connections", JSValue.num 40)]) "url"
      = some (JSValue.str ("https://example.com/" ++ "TOKEN"))
    ∧ (setWebhook "TOKEN" (JSValue.str "https://example.com/")
        [("max_connections", JSValue.num 40)] true).events
      = [Event.apiCall "setWebhook"
          (setWebhookPayload "TOKEN" "https://example.com/"
            [("max_connections", JSValue.num 40)])] :=
  C4_default_path "TOKEN" "https://example.com/"
    [("max_connections", JSValue.num 40)] true (by decide) rfl rfl

/-- C9: for every options mapping holding a truthy path property (and a
url passing the https validation, without which the method throws before
reaching the delete), calling setWebhook mutates the caller-supplied
options object: afterwards the path property has been deleted from it,
whatever the outcome of the remote call, and every other property is
unchanged. -/
theorem C9_setWebhook_mutates_caller_options (token url : String)
    (options : Obj) (tapiOk : Bool) (v : JSValue)
    (hval : jsURLProtocol url = some "https:")
    (hpath : objGet options "path" = some v)
    (ht : truthy v = true) :
    (setWebhook token (JSValue.str url) options tapiOk).optionsAfter
      = objDel options "path"
    ∧ objGet (setWebhook token (JSValue.str url) options tapiOk).optionsAfter
        "path" = none
    ∧ ∀ k, k ≠ "path" →
        objGet (setWebhook token (JSValue.str url) options tapiOk).optionsAfter k
          = objGet options k := by
  have hafter : (setWebhook token (JSValue.str url) options tapiOk).optionsAfter
      = objDel options "path" := by
    rw [setWebhook_of_valid token url options tapiOk hval]
    exact optionsAfterDelete_of_truthy options v hpath ht
  refine ⟨hafter, ?_, ?_⟩
  · rw [hafter]
    exact objGet_objDel_self options "path"
  · intro k hk
    rw [hafter]
    exact objGet_objDel_ne options "path" k hk

/-- Witness for C9 at a concrete input: path is removed from the very
options value, max_connections survives unchanged. -/
theorem C9_witness :
    (setWebhook "TOKEN" (JSValue.str "https://example.com/")
        [("path", JSValue.str "hook"), ("max_connections", JSValue.num 40)]
        true).optionsAfter
      = objDel [("path", JSValue.str "hook"), ("max_connections", JSValue.num 40)]
          "path"
    ∧ objGet (setWebhook "TOKEN" (JSValue.str "https://example.com/")
        [("path", JSValue.str "hook"), ("max_connections", JSValue.num 40)]
        true).optionsAfter "path" = none
    ∧ objGet (setWebhook "TOKEN" (JSValue.str "https://example.com/")
        [("path", JSValue.str "hook"), ("max_connections", JSValue.num 40)]
        true).optionsAfter "max_connections"
      = objGet [("path", JSValue.str "hook"), ("max_connections", JSValue.num 40)]
          "max_connections" := by
  have h := C9_setWebhook_mutates_caller_options "TOKEN" "https://example.com/"
    [("path", JSValue.str "hook"), ("max_connections", JSValue.num 40)] true
    (JSValue.str "hook") (by decide) rfl (by decide)
  exact ⟨h.1, h.2.1, h.2.2 "max_connections" (by decide)⟩

/-- C10: the path-override check of setWebhook uses truthiness, not
presence.  For every options mapping with unique keys whose path property
is present but falsy, the derived registration path is the bot token
rather than the supplied value, the options object is left unmutated (the
delete is skipped), and the falsy path key is spread into the payload of
the recorded remote registration call. -/
theorem C10_falsy_path_uses_token (token url : String) (options : Obj)
    (tapiOk : Bool) (v : JSValue)
    (hval : jsURLProtocol url = some "https:")
    (hpath : objGet options "path" = some v)
    (ht : truthy v = false)
    (hnd : nodupKeys options) :
    derivedUrlPath token options = JSValue.str token
    ∧ optionsAfterDelete options = options
    ∧ objGet (setWebhookPayload token url options) "path" = some v
    ∧ (setWebhook token (JSValue.str url) options tapiOk).events
        = [Event.apiCall "setWebhook" (setWebhookPayload token url options)] := by
  have hder : derivedUrlPath token options = JSValue.str token :=
    derivedUrlPath_of_falsy token options v hpath ht
  have hdel : optionsAfterDelete options = options :=
    optionsAfterDelete_of_falsy options v hpath ht
  refine ⟨hder, hdel, ?_, ?_⟩
  · unfold setWebhookPayload
    rw [hdel]
    exact objGet_objSpread_of_some _ options "path" v hnd hpath
  · rw [setWebhook_of_valid token url options tapiOk hval]

/-- Witness for C10 at the concrete falsy path value, the empty string. -/
theorem C10_witness :
    derivedUrlPath "TOKEN" [("path", JSValue.str "")] = JSValue.str "TOKEN"
    ∧ optionsAfterDelete [("path", JSValue.str "")] = [("path", JSValue.str "")]
    ∧ objGet (setWebhookPayload "TOKEN" "https://example.org/"
        [("path", JSValue.str "")]) "path" = some (JSValue.str "")
    ∧ (setWebhook "TOKEN" (JSValue.str "https://example.org/")
        [("path", JSValue.str "")] true).events
      = [Event.apiCall "setWebhook"
          (setWebhookPayload "TOKEN" "https://example.org/"
            [("path", JSValue.str "")])] :=
  C10_falsy_path_uses_token "TOKEN" "https://example.org/"
    [("path", JSValue.str "")] true (JSValue.str "") (by decide) rfl (by decide)
    (by decide)

/-- C5: the claim states that in every teardown run the listener close is
initiated only after the remote deleteWebhook call completed.  In the code
no run of deleteWebhook ever performs either step: evaluating the unbound
identifier BOT_TOKEN (and then options) throws a ReferenceError that the
catch block turns into a resolved false, whatever the remote-call and
close oracles would do, so the event trace is always empty. -/
theorem C5_teardown_never_reaches_delete (tapiOk closeOk : Bool) :
    (deleteWebhook tapiOk closeOk).events = []
    ∧ (deleteWebhook tapiOk closeOk).result = Except.ok (JSValue.bool false) :=
  ⟨rfl, rfl⟩

/-- C6: the claim conditions on the remote deregistration call failing; in
the code that call is never even issued.  Every run of deleteWebhook
resolves false (reporting failure) and never initiates the listener close,
including runs whose oracles would have let deregistration succeed. -/
theorem C6_teardown_always_fails_listener_open (tapiOk closeOk : Bool) :
    (deleteWebhook tapiOk closeOk).result = Except.ok (JSValue.bool false)
    ∧ Event.closeServer ∉ (deleteWebhook tapiOk closeOk).events
    ∧ ∀ p, Event.apiCall "deleteWebhook" p ∉ (deleteWebhook tapiOk closeOk).events := by
  refine ⟨rfl, ?_, fun p => ?_⟩
  · show Event.closeServer ∉ ([] : List Event)
    exact List.not_mem_nil _
  · show Event.apiCall "deleteWebhook" p ∉ ([] : List Event)
    exact List.not_mem_nil _

/-- C7: the claim says teardown reports a ServerCloseError when close
fails after successful deregistration.  In the code the close is
unreachable (the ReferenceError precedes the remote call), and the catch
block resolves the generic boolean false: no run of deleteWebhook ever
settles with a thrown or typed error, or with true. -/
theorem C7_teardown_reports_generic_false (tapiOk closeOk : Bool) :
    (deleteWebhook tapiOk closeOk).result = Except.ok (JSValue.bool false)
    ∧ ∀ e, (deleteWebhook tapiOk closeOk).result ≠ Except.error e :=
  ⟨rfl, fun _ h => Except.noConfusion h⟩

/-- C8: in the end-to-end scenario the registration payload url is
https://example.com/TOKEN, but the teardown never sends any deregistration
payload at all: deleteWebhook records no API call and resolves false (its
url computation throws a ReferenceError on the unbound BOT_TOKEN, and even
textually it would be the hardcoded Telegram API base, not the registered
url). -/
theorem C8_dereg_payload_never_sent :
    (setWebhook "TOKEN" (JSValue.str "https://example.com/") [] true).events
      = [Event.apiCall "setWebhook"
          [("url", JSValue.str "https://example.com/TOKEN")]]
    ∧ (deleteWebhook true true).events = []
    ∧ (deleteWebhook true true).result = Except.ok (JSValue.bool false) :=
  ⟨rfl, rfl, rfl⟩

end Yatbl
